import Mathlib

/-! # AutoPost-Hub: the view controller of `static/js/script.js`

A shallow embedding of the page script: the values a JSON response can carry,
the page (the form's controls, the inline `display` of the three regions, the
markup of the result container), the two helper functions `displayResults` and
`resetForm`, the submit handler and the two continuations of its `fetch`.

Conventions of the embedding

* A JavaScript string is a Lean `String`.
* A JSON number is kept as what the script observes of it: whether it is
  zero, and the text JavaScript prints for it.
* A conversion to a string can throw: the exception is a value of the
  embedding, and goes where the script sends it.
* A region is visible exactly when its inline `display` is not `none`; the
  script writes nothing else.
* `innerHTML` is the markup string last assigned to it.
* Observable effects (the request, the alerts, the calls of the two helpers)
  are appended to a log in the order in which the script performs them.
-/

namespace AutoPost

/-! ## JavaScript values -/

/-- The values that occur in the script: what `JSON.parse` can produce, and
`undefined`, which a property read of a missing key produces. An object is its
list of own properties, the binding in force first. A number is kept as the
two things the script can observe of it: whether it is zero, the only falsy
number a JSON text yields, and the text that JavaScript prints for it (`0`,
`-5`, `1.5`, `1e+21`). -/
inductive JVal where
  | undefined : JVal
  | null : JVal
  | bool (b : Bool) : JVal
  | num (isZero : Bool) (text : String) : JVal
  | str (s : String) : JVal
  | arr (items : List JVal) : JVal
  | obj (props : List (String × JVal)) : JVal

namespace JVal

/-- Whether the object has an own property `key`. -/
def hasOwn (key : String) (props : List (String × JVal)) : Bool :=
  props.any (fun kv => kv.1 == key)

/-- The text of the `TypeError` raised when an object has no callable
`toString` or `valueOf` that yields a primitive (the wording of V8). -/
def convertErrorText : String :=
  "TypeError: Cannot convert object to primitive value"

mutual
/-- JavaScript `ToString`, as applied by `+` with a string operand and by a
template literal: the text, or the exception raised. An array is joined with
commas. An object of `JSON.parse` prints as `[object Object]` through the
inherited `toString`, unless it has an own property `toString`: that property
is a JSON value, so it is not callable, the inherited `valueOf` returns the
object itself, and the conversion throws a `TypeError`. -/
def toStr : JVal → Except String String
  | undefined => .ok "undefined"
  | null => .ok "null"
  | bool true => .ok "true"
  | bool false => .ok "false"
  | num _ text => .ok text
  | str s => .ok s
  | arr items => joinItems items
  | obj props => if hasOwn "toString" props then .error convertErrorText else .ok "[object Object]"
/-- The text of `Array.prototype.join` with the separator `,`, the elements
converted from left to right. -/
def joinItems : List JVal → Except String String
  | [] => .ok ""
  | [x] => itemStr x
  | x :: y :: rest =>
    match itemStr x with
    | .error e => .error e
    | .ok first =>
      match joinItems (y :: rest) with
      | .error e => .error e
      | .ok others => .ok (first ++ "," ++ others)
/-- One element of a joined array: `null` and `undefined` contribute the
empty string, any other element its `ToString`. -/
def itemStr : JVal → Except String String
  | undefined => .ok ""
  | null => .ok ""
  | bool true => .ok "true"
  | bool false => .ok "false"
  | num _ text => .ok text
  | str s => .ok s
  | arr items => joinItems items
  | obj props => if hasOwn "toString" props then .error convertErrorText else .ok "[object Object]"
end

/-- JavaScript `ToBoolean`, the test of `if (data.error)`. -/
def truthy : JVal → Bool
  | undefined => false
  | null => false
  | bool b => b
  | num isZero _ => !isZero
  | str s => s != ""
  | arr _ => true
  | obj _ => true

/-- The own property `key` of an object, `undefined` when there is none. -/
def lookup (key : String) : List (String × JVal) → JVal
  | [] => undefined
  | (k, v) :: rest => if k = key then v else lookup key rest

/-- The text of the `TypeError` raised by a property read on `null` or
`undefined` (the wording of V8; other engines word it differently). -/
def typeErrorText (base key : String) : String :=
  "TypeError: Cannot read properties of " ++ base ++ " (reading \x27" ++ key ++ "\x27)"

/-- The property read `v.key` for the keys the script reads (`error` and the
four result keys, none of which a prototype defines): the own property of an
object, `undefined` on any other value, and a thrown `TypeError` on `null`
and `undefined`. -/
def prop (v : JVal) (key : String) : Except String JVal :=
  match v with
  | undefined => .error (typeErrorText "undefined" key)
  | null => .error (typeErrorText "null" key)
  | obj props => .ok (lookup key props)
  | _ => .ok undefined

end JVal

/-! ## The page -/

/-- A control of the form `automationForm` that contributes an entry to
`new FormData(form)` (a named text-like control): its name, its current value
and the default value that `form.reset()` restores. The markup of the form is
not part of the script, so the controls are data of the page. -/
structure Control where
  name : String
  value : String
  defaultValue : String
  deriving DecidableEq, Repr

/-- What `form.reset()` does to one control. -/
def Control.reset (c : Control) : Control :=
  { c with value := c.defaultValue }

/-- The part of the document the script reads and writes: the controls of
`form`, the inline `style.display` of `mainForm`, `loadingState` and
`thankYouPage`, and the `innerHTML` of `resultContainer`. -/
structure Page where
  form : List Control
  mainForm : String
  loadingState : String
  thankYouPage : String
  resultContainer : String
  deriving DecidableEq, Repr

/-- The argument of `fetch`. -/
structure Request where
  url : String
  method : String
  headers : List (String × String)
  body : String
  deriving DecidableEq, Repr

/-- The observable actions of the script, logged in the order they happen. -/
inductive Effect where
  | preventDefault : Effect
  | fetch (request : Request) : Effect
  | alert (message : String) : Effect
  | resetFormCalled : Effect
  | displayResultsCalled : Effect
  deriving DecidableEq, Repr

/-- The page together with the log of what the script has done so far. -/
structure World where
  page : Page
  log : List Effect
  deriving DecidableEq, Repr

/-- A region is shown unless its inline `display` is `none`. -/
def visible (display : String) : Bool :=
  display != "none"

/-- View state `Form`: only the form region is shown. -/
def isFormView (p : Page) : Bool :=
  visible p.mainForm && !visible p.loadingState && !visible p.thankYouPage

/-- View state `Loading`: only the loading region is shown. -/
def isLoadingView (p : Page) : Bool :=
  !visible p.mainForm && visible p.loadingState && !visible p.thankYouPage

/-- View state `Result`: only the result region is shown. -/
def isResultView (p : Page) : Bool :=
  !visible p.mainForm && !visible p.loadingState && visible p.thankYouPage

/-- The number of regions shown. -/
def visibleCount (p : Page) : Nat :=
  (if visible p.mainForm then 1 else 0) + (if visible p.loadingState then 1 else 0)
    + (if visible p.thankYouPage then 1 else 0)

/-- Exactly one of the three regions is shown. -/
def exactlyOneVisible (p : Page) : Bool :=
  visibleCount p == 1

/-! ## `FormData` and `JSON.stringify` -/

/-- `formData.get(name)`: the value of the first control with that name,
`null` (here `none`) when the form has no such control. -/
def formDataGet (form : List Control) (name : String) : Option String :=
  match form with
  | [] => none
  | c :: rest => if c.name = name then some c.value else formDataGet rest name

/-- The object literal `data` of the submit handler, in source order. -/
def payload (form : List Control) : List (String × Option String) :=
  [ ("calendarUrl", formDataGet form "calendarUrl"),
    ("linkedinToken", formDataGet form "linkedinToken"),
    ("authorUrn", formDataGet form "authorUrn"),
    ("openaiKey", formDataGet form "openaiKey"),
    ("brandName", formDataGet form "brandName"),
    ("brandTone", formDataGet form "brandTone"),
    ("hashtags", formDataGet form "hashtags"),
    ("schedulerTime", formDataGet form "schedulerTime") ]

/-- A hexadecimal digit, lower case. -/
def hexDigit (n : Nat) : Char :=
  if n < 10 then Char.ofNat (48 + n) else Char.ofNat (87 + n)

/-- One character inside a JSON string literal, as `JSON.stringify` writes it. -/
def quoteChar (c : Char) : String :=
  if c = Char.ofNat 8 then "\\b"
  else if c = Char.ofNat 9 then "\\t"
  else if c = Char.ofNat 10 then "\\n"
  else if c = Char.ofNat 12 then "\\f"
  else if c = Char.ofNat 13 then "\\r"
  else if c = Char.ofNat 34 then "\\\""
  else if c = Char.ofNat 92 then "\\\\"
  else if c.toNat < 32 then
    "\\u00" ++ String.singleton (hexDigit (c.toNat / 16)) ++ String.singleton (hexDigit (c.toNat % 16))
  else String.singleton c

/-- The JSON string literal for `s`. -/
def quoteJSON (s : String) : String :=
  "\"" ++ String.join (s.data.map quoteChar) ++ "\""

/-- The serialization of a property value that is a string or `null`. -/
def stringifyValue : Option String → String
  | none => "null"
  | some s => quoteJSON s

/-- One `key:value` member of the serialized object. -/
def stringifyMember (kv : String × Option String) : String :=
  quoteJSON kv.1 ++ ":" ++ stringifyValue kv.2

/-- `JSON.stringify` on an object whose property values are strings or
`null`: the members in property order, separated by commas, no white space. -/
def stringify (props : List (String × Option String)) : String :=
  "\x7b" ++ ",".intercalate (props.map stringifyMember) ++ "\x7d"

/-! ## The helper functions -/

/-- The template literal of `displayResults` with its four substitutions. -/
def resultHtml (title body banner urn : String) : String :=
  "\n        <h2>" ++ title ++ "</h2>\n        <p>" ++ body
    ++ "</p>\n        <img src=\"" ++ banner
    ++ "\" alt=\"Generated Banner\" style=\"max-width: 100%; border-radius: 12px; margin-top: 20px;\">\n        <p style=\"margin-top: 20px;\">Posted to LinkedIn with URN: "
    ++ urn ++ "</p>\n    "

/-- The evaluation of the template literal on `data`: the four property reads
in order, each converted to a string before the next is read; the first
exception ends the evaluation. -/
def renderResult (data : JVal) : Except String String := do
  let title ← data.prop "post_title"
  let titleText ← title.toStr
  let body ← data.prop "post_body"
  let bodyText ← body.toStr
  let banner ← data.prop "banner_url"
  let bannerText ← banner.toStr
  let urn ← data.prop "linkedin_post_urn"
  let urnText ← urn.toStr
  pure (resultHtml titleText bodyText bannerText urnText)

/-- The function `displayResults(data)`: the page it leaves, and the exception
it raised, if any. The result region is shown before the template is
evaluated, so it stays shown when the evaluation throws. -/
def displayResults (data : JVal) (p : Page) : Page × Option String :=
  let p1 := { p with thankYouPage := "block" }
  match renderResult data with
  | .ok html => ({ p1 with resultContainer := html }, none)
  | .error e => (p1, some e)

/-- The function `resetForm()`. -/
def resetForm (p : Page) : Page :=
  let p1 := { p with form := p.form.map Control.reset }
  let p2 := { p1 with thankYouPage := "none" }
  let p3 := { p2 with mainForm := "block" }
  { p3 with resultContainer := "" }

/-! ## The submit handler and the continuations of its request -/

/-- The request the submit handler sends. -/
def generatePostRequest (form : List Control) : Request :=
  { url := "http://127.0.0.1:5000/api/generate-post"
    method := "POST"
    headers := [("Content-Type", "application/json")]
    body := stringify (payload form) }

/-- The listener of the form's `submit` event, up to and including the call
of `fetch`. -/
def onSubmit (w : World) : World :=
  let w1 := { w with log := w.log ++ [Effect.preventDefault] }
  let request := generatePostRequest w1.page.form
  let w2 := { w1 with page := { w1.page with mainForm := "none" } }
  let w3 := { w2 with page := { w2.page with loadingState := "block" } }
  { w3 with log := w3.log ++ [Effect.fetch request] }

/-- A call of `resetForm()`, logged. -/
def callResetForm (w : World) : World :=
  { page := resetForm w.page, log := w.log ++ [Effect.resetFormCalled] }

/-- A call of `displayResults(data)`, logged. -/
def callDisplayResults (data : JVal) (w : World) : World × Option String :=
  let r := displayResults data w.page
  ({ page := r.1, log := w.log ++ [Effect.displayResultsCalled] }, r.2)

/-- The second `.then` callback, run with the parsed body: the world it
leaves, and the exception it raised, if any. -/
def onResponse (data : JVal) (w : World) : World × Option String :=
  let w1 := { w with page := { w.page with loadingState := "none" } }
  match data.prop "error" with
  | .error e => (w1, some e)
  | .ok err =>
    if err.truthy then
      match err.toStr with
      | .error e => (w1, some e)
      | .ok text =>
        let w2 := { w1 with log := w1.log ++ [Effect.alert ("Error: " ++ text)] }
        (callResetForm w2, none)
    else
      callDisplayResults data w1

/-- The `.catch` callback, run with the text of the rejection. -/
def onFailure (error : String) (w : World) : World :=
  let w1 := { w with page := { w.page with loadingState := "none" } }
  let w2 := { w1 with log := w1.log ++ [Effect.alert ("An error occurred: " ++ error)] }
  callResetForm w2

/-- How a request ends: `response.json()` delivers a parsed body, or the
promise chain is rejected (network error, body that is not JSON). -/
inductive Completion where
  | body (data : JVal) : Completion
  | rejected (reason : String) : Completion

/-- The promise chain after `fetch`: the parsed body goes to the `.then`
callback, and a rejection, or an exception of that callback, to `.catch`. -/
def complete (c : Completion) (w : World) : World :=
  match c with
  | .body data =>
    match onResponse data w with
    | (w1, none) => w1
    | (w1, some e) => onFailure e w1
  | .rejected reason => onFailure reason w

/-! ## The page as a transition system -/

/-- What can happen to the page: the form is submitted, or one of the
requests in flight completes. -/
inductive Event where
  | submit : Event
  | completion (c : Completion) : Event

/-- The page and the number of requests in flight. -/
structure Sys where
  world : World
  pending : Nat

/-- One event, with no restriction on when the form can be submitted. A
completion needs a request in flight. -/
def step (s : Sys) : Event → Option Sys
  | .submit => some { world := onSubmit s.world, pending := s.pending + 1 }
  | .completion c =>
    if 0 < s.pending then some { world := complete c s.world, pending := s.pending - 1 }
    else none

/-- A sequence of events. -/
def run (s : Sys) : List Event → Option Sys
  | [] => some s
  | e :: rest => (step s e).bind (fun s1 => run s1 rest)

/-- One event, where the form can be submitted only in the view state `Form`. -/
def stepFromForm (s : Sys) : Event → Option Sys
  | .submit => if isFormView s.world.page then step s .submit else none
  | .completion c => step s (.completion c)

/-- A sequence of events, each submit issued in the view state `Form`. -/
def runFromForm (s : Sys) : List Event → Option Sys
  | [] => some s
  | e :: rest => (stepFromForm s e).bind (fun s1 => runFromForm s1 rest)

/-! ## Auxiliary definitions for the statements -/

/-- The requests in a log, in order. -/
def requestsOf : List Effect → List Request
  | [] => []
  | .fetch r :: rest => r :: requestsOf rest
  | .preventDefault :: rest => requestsOf rest
  | .alert _ :: rest => requestsOf rest
  | .resetFormCalled :: rest => requestsOf rest
  | .displayResultsCalled :: rest => requestsOf rest

/-- The failure shape of a response: an object whose `error` is a string. -/
def isErrorShape : JVal → Bool
  | .obj props =>
    match JVal.lookup "error" props with
    | .str _ => true
    | _ => false
  | _ => false

/-- Whether the own property `key` is a string. -/
def hasStringProp (key : String) (props : List (String × JVal)) : Bool :=
  match JVal.lookup key props with
  | .str _ => true
  | _ => false

/-- The success shape of a response: an object whose `post_title`,
`post_body`, `banner_url` and `linkedin_post_urn` are strings. -/
def isResultShape : JVal → Bool
  | .obj props =>
    hasStringProp "post_title" props && hasStringProp "post_body" props
      && hasStringProp "banner_url" props && hasStringProp "linkedin_post_urn" props
  | _ => false

/-- The success body with the four given texts. -/
def resultBody (title body banner urn : String) : JVal :=
  .obj [("post_title", .str title), ("post_body", .str body), ("banner_url", .str banner),
    ("linkedin_post_urn", .str urn)]

/-- A page in the view state `Form` whose form is filled in: one field has
a default value that is not empty. -/
def filledPage : Page :=
  { form :=
      [ { name := "calendarUrl", value := "http://cal.example/x", defaultValue := "" },
        { name := "brandName", value := "Acme", defaultValue := "" },
        { name := "brandTone", value := "casual", defaultValue := "professional" } ]
    mainForm := "block"
    loadingState := "none"
    thankYouPage := "none"
    resultContainer := "" }

/-- A page in the view state `Result` with the same controls as `filledPage`. -/
def shownPage : Page :=
  { form :=
      [ { name := "calendarUrl", value := "", defaultValue := "" },
        { name := "brandName", value := "Other", defaultValue := "" },
        { name := "brandTone", value := "professional", defaultValue := "professional" } ]
    mainForm := "none"
    loadingState := "none"
    thankYouPage := "block"
    resultContainer := "<h2>old</h2>" }

/-- A form with the eight fields, only `calendarUrl` filled in. -/
def calendarOnlyForm : List Control :=
  [ { name := "calendarUrl", value := "http://cal.example/x", defaultValue := "" },
    { name := "linkedinToken", value := "", defaultValue := "" },
    { name := "authorUrn", value := "", defaultValue := "" },
    { name := "openaiKey", value := "", defaultValue := "" },
    { name := "brandName", value := "", defaultValue := "" },
    { name := "brandTone", value := "", defaultValue := "" },
    { name := "hashtags", value := "", defaultValue := "" },
    { name := "schedulerTime", value := "", defaultValue := "" } ]

/-- A form with two of the eight fields, one of them twice. The value of
`brandName` has characters that JSON escapes: a quote, a backslash, a line
feed, the control character 1, a backspace, a tab, a form feed, a carriage
return and the control character 31. -/
def sparseForm : List Control :=
  [ { name := "brandName", value := "A\"c\\m\ne\x01\x08\t\x0c\r\x1f", defaultValue := "" },
    { name := "hashtags", value := "#lean #js", defaultValue := "" },
    { name := "hashtags", value := "#shadowed", defaultValue := "" } ]

/-- A character that `JSON.stringify` writes as it is. -/
def plainChar (c : Char) : Bool :=
  decide (32 ≤ c.toNat) && c.toNat != 34 && c.toNat != 92

/-- The body `{"error": {"toString": 1}}`: its `error` is truthy and cannot be
converted to a string. -/
def unconvertibleError : JVal :=
  .obj [("error", .obj [("toString", .num false "1")])]

/-- The body `{"post_title": "T", "post_body": {"toString": "x"},
"banner_url": "U", "linkedin_post_urn": "L"}`: no `error`, and a result field
that cannot be converted to a string. -/
def unconvertibleField : JVal :=
  .obj [("post_title", .str "T"), ("post_body", .obj [("toString", .str "x")]),
    ("banner_url", .str "U"), ("linkedin_post_urn", .str "L")]

/-- The page `filledPage` before the script has done anything. -/
def filledWorld : World :=
  { page := filledPage, log := [] }

/-- The system at page load: `filledPage`, nothing logged, no request in
flight. -/
def initSys : Sys :=
  { world := filledWorld, pending := 0 }

/-- One submit followed by the completion of its request, with nothing in
between. -/
def submitThenComplete (c : Completion) (w : World) : World :=
  complete c (onSubmit w)

/-- The view-state protocol: the page is in one of the three view states, with
one request in flight in `Loading` and none otherwise. -/
def viewInv (s : Sys) : Prop :=
  (isFormView s.world.page = true ∧ s.pending = 0)
    ∨ (isLoadingView s.world.page = true ∧ s.pending = 1)
    ∨ (isResultView s.world.page = true ∧ s.pending = 0)

/-! ## Basic facts -/

@[simp] theorem visible_none : visible "none" = false := by decide

@[simp] theorem visible_block : visible "block" = true := by decide

theorem not_visible_iff (d : String) : visible d = false ↔ d = "none" := by
  simp [visible]

theorem requestsOf_append (xs ys : List Effect) :
    requestsOf (xs ++ ys) = requestsOf xs ++ requestsOf ys := by
  induction xs with
  | nil => rfl
  | cons x rest ih => cases x <;> simp [requestsOf, ih]

theorem quoteJSON_keys :
    quoteJSON "calendarUrl" = "\"calendarUrl\"" ∧ quoteJSON "linkedinToken" = "\"linkedinToken\""
    ∧ quoteJSON "authorUrn" = "\"authorUrn\"" ∧ quoteJSON "openaiKey" = "\"openaiKey\""
    ∧ quoteJSON "brandName" = "\"brandName\"" ∧ quoteJSON "brandTone" = "\"brandTone\""
    ∧ quoteJSON "hashtags" = "\"hashtags\"" ∧ quoteJSON "schedulerTime" = "\"schedulerTime\"" := by
  decide

theorem stringify_payload (f : List Control) :
    stringify (payload f) =
      "\x7b" ++ "\"calendarUrl\"" ++ ":" ++ stringifyValue (formDataGet f "calendarUrl")
        ++ "," ++ "\"linkedinToken\"" ++ ":" ++ stringifyValue (formDataGet f "linkedinToken")
        ++ "," ++ "\"authorUrn\"" ++ ":" ++ stringifyValue (formDataGet f "authorUrn")
        ++ "," ++ "\"openaiKey\"" ++ ":" ++ stringifyValue (formDataGet f "openaiKey")
        ++ "," ++ "\"brandName\"" ++ ":" ++ stringifyValue (formDataGet f "brandName")
        ++ "," ++ "\"brandTone\"" ++ ":" ++ stringifyValue (formDataGet f "brandTone")
        ++ "," ++ "\"hashtags\"" ++ ":" ++ stringifyValue (formDataGet f "hashtags")
        ++ "," ++ "\"schedulerTime\"" ++ ":" ++ stringifyValue (formDataGet f "schedulerTime")
        ++ "\x7d" := by
  obtain ⟨h1, h2, h3, h4, h5, h6, h7, h8⟩ := quoteJSON_keys
  simp only [stringify, payload, stringifyMember, List.map, String.intercalate,
    String.intercalate.go, h1, h2, h3, h4, h5, h6, h7, h8, String.append_assoc]

theorem reset_defaults (f g : List Control)
    (h : f.map (fun c => (c.name, c.defaultValue)) = g.map (fun c => (c.name, c.defaultValue))) :
    f.map Control.reset = g.map Control.reset := by
  induction f generalizing g with
  | nil =>
    cases g with
    | nil => rfl
    | cons d rest => simp at h
  | cons c rest ih =>
    cases g with
    | nil => simp at h
    | cons d rest2 =>
      simp only [List.map_cons, List.cons.injEq, Prod.mk.injEq] at h
      obtain ⟨⟨hn, hd⟩, hrest⟩ := h
      simp only [List.map_cons, List.cons.injEq]
      exact ⟨by simp [Control.reset, hn, hd], ih rest2 hrest⟩

/-! ## The claims about `resetForm` and `displayResults` -/

/-- C6: `resetForm` is idempotent: on every page (any controls, any display
of the three regions, any result markup) running it twice leaves the same
page as running it once. -/
theorem resetForm_idempotent (p : Page) : resetForm (resetForm p) = resetForm p := by
  simp [resetForm, Control.reset]

theorem displayResults_loading (d : JVal) (p : Page) :
    (displayResults d p).1.loadingState = p.loadingState := by
  unfold displayResults
  cases renderResult d <;> simp

/-- C8: after `displayResults(d)`, for every page and every value `d`, the
result region is shown, and the display of the form region, the display of
the loading region and the form's controls are what they were; only the
display of the result region and the result markup can differ. -/
theorem displayResults_frame (d : JVal) (p : Page) :
    visible (displayResults d p).1.thankYouPage = true
    ∧ (displayResults d p).1.mainForm = p.mainForm
    ∧ (displayResults d p).1.loadingState = p.loadingState
    ∧ (displayResults d p).1.form = p.form
    ∧ visible (displayResults d p).1.mainForm = visible p.mainForm
    ∧ visible (displayResults d p).1.loadingState = visible p.loadingState := by
  unfold displayResults
  cases renderResult d <;> simp

/-- C9: `resetForm` takes a page in the view state `Form` and a page in the
view state `Result` with the same controls and defaults (any values, any
result markup) to the same page, and that page is in the view state `Form`:
form region shown, result and loading regions hidden, every control at
its default, the controls and their defaults kept, the result markup empty. -/
theorem resetForm_converges (p1 p2 : Page)
    (h1 : isFormView p1 = true) (h2 : isResultView p2 = true)
    (hd : p1.form.map (fun c => (c.name, c.defaultValue))
      = p2.form.map (fun c => (c.name, c.defaultValue))) :
    resetForm p1 = resetForm p2
    ∧ isFormView (resetForm p1) = true
    ∧ visible (resetForm p1).mainForm = true
    ∧ visible (resetForm p1).thankYouPage = false
    ∧ visible (resetForm p1).loadingState = false
    ∧ (∀ c ∈ (resetForm p1).form, c.value = c.defaultValue)
    ∧ (resetForm p1).form.map (fun c => (c.name, c.defaultValue))
        = p1.form.map (fun c => (c.name, c.defaultValue))
    ∧ (resetForm p1).resultContainer = "" := by
  have hl1 : p1.loadingState = "none" := by
    simp [isFormView, not_visible_iff] at h1
    exact h1.1.2
  have hl2 : p2.loadingState = "none" := by
    simp [isResultView, not_visible_iff] at h2
    exact h2.1.2
  refine ⟨?_, ?_, ?_, ?_, ?_, ?_, ?_, ?_⟩
  · simp [resetForm, hl1, hl2, reset_defaults _ _ hd]
  · simp [resetForm, isFormView, hl1]
  · simp [resetForm]
  · simp [resetForm]
  · simp [resetForm, hl1]
  · intro c hc
    simp only [resetForm, List.mem_map] at hc
    obtain ⟨c0, _, rfl⟩ := hc
    rfl
  · simp [resetForm, Control.reset, Function.comp_def]
  · simp [resetForm]

/-- Witness of C9 on the pages `filledPage` and `shownPage`. -/
theorem resetForm_converges_witness :
    isFormView filledPage = true ∧ isResultView shownPage = true
    ∧ resetForm filledPage = resetForm shownPage
    ∧ (resetForm filledPage).resultContainer = "" :=
  ⟨by decide, by decide,
    (resetForm_converges filledPage shownPage (by decide) (by decide) (by decide)).1,
    (resetForm_converges filledPage shownPage (by decide) (by decide) (by decide)).2.2.2.2.2.2.2⟩

theorem formDataGet_absent (f : List Control) (name : String)
    (h : ∀ c ∈ f, c.name ≠ name) : formDataGet f name = none := by
  induction f with
  | nil => rfl
  | cons c rest ih =>
    have hc : c.name ≠ name := h c (List.mem_cons_self _ _)
    simp only [formDataGet, hc, if_false]
    exact ih (fun x hx => h x (List.mem_cons_of_mem _ hx))

theorem formDataGet_first (pre : List Control) (c : Control) (post : List Control)
    (h : ∀ x ∈ pre, x.name ≠ c.name) :
    formDataGet (pre ++ c :: post) c.name = some c.value := by
  induction pre with
  | nil => simp [formDataGet]
  | cons x rest ih =>
    have hx : x.name ≠ c.name := h x (List.mem_cons_self _ _)
    simp only [List.cons_append, formDataGet, hx, if_false]
    exact ih (fun y hy => h y (List.mem_cons_of_mem _ hy))

theorem quoteChar_plain (c : Char) (h : plainChar c = true) :
    quoteChar c = String.singleton c := by
  simp only [plainChar, Bool.and_eq_true, decide_eq_true_eq, bne_iff_ne, ne_eq] at h
  obtain ⟨⟨h32, h34⟩, h92⟩ := h
  have n8 : c ≠ Char.ofNat 8 := fun hc => by rw [hc] at h32; revert h32; decide
  have n9 : c ≠ Char.ofNat 9 := fun hc => by rw [hc] at h32; revert h32; decide
  have n10 : c ≠ Char.ofNat 10 := fun hc => by rw [hc] at h32; revert h32; decide
  have n12 : c ≠ Char.ofNat 12 := fun hc => by rw [hc] at h32; revert h32; decide
  have n13 : c ≠ Char.ofNat 13 := fun hc => by rw [hc] at h32; revert h32; decide
  have n34 : c ≠ Char.ofNat 34 := fun hc => by rw [hc] at h34; revert h34; decide
  have n92 : c ≠ Char.ofNat 92 := fun hc => by rw [hc] at h92; revert h92; decide
  have nlt : ¬ c.toNat < 32 := by omega
  simp only [quoteChar, n8, n9, n10, n12, n13, n34, n92, nlt, if_false]

theorem foldl_singletons (l : List Char) (acc : String) (h : ∀ c ∈ l, plainChar c = true) :
    List.foldl (fun r s => r ++ s) acc (l.map quoteChar) = acc ++ String.mk l := by
  induction l generalizing acc with
  | nil =>
    apply String.ext
    simp [String.data_append]
  | cons c rest ih =>
    rw [List.map_cons, List.foldl_cons, ih _ (fun x hx => h x (List.mem_cons_of_mem _ hx)),
      quoteChar_plain c (h c (List.mem_cons_self _ _))]
    apply String.ext
    simp [String.data_append, String.singleton]

theorem quoteJSON_plain (s : String) (h : ∀ c ∈ s.data, plainChar c = true) :
    quoteJSON s = "\"" ++ s ++ "\"" := by
  have hj : String.join (s.data.map quoteChar) = s := by
    rw [String.join, foldl_singletons s.data "" h]
    apply String.ext
    simp [String.data_append]
  rw [quoteJSON, hj]

/-- C5: one submit issues exactly one request, whatever the form holds: a
`POST` to the path `/api/generate-post` with the header
`Content-Type: application/json`, whose body is the JSON object with the
eight keys in source order, none omitted, each followed by the JSON text of
the field of that name: `null` when the form has no control of that name,
and otherwise the current value of the first such control as a JSON string,
which is the value between quotes when it needs no escape (the empty string
included). On the form with only `calendarUrl` filled in, the seven blank
fields are sent as `""`; on a form that lacks a field, the field is sent as
`null`. -/
theorem onSubmit_request (w : World) :
    (onSubmit w).log
      = w.log ++ [Effect.preventDefault, Effect.fetch (generatePostRequest w.page.form)]
    ∧ requestsOf (onSubmit w).log = requestsOf w.log ++ [generatePostRequest w.page.form]
    ∧ (generatePostRequest w.page.form).method = "POST"
    ∧ (generatePostRequest w.page.form).url = "http://127.0.0.1:5000" ++ "/api/generate-post"
    ∧ (generatePostRequest w.page.form).headers = [("Content-Type", "application/json")]
    ∧ (payload w.page.form).map Prod.fst
        = ["calendarUrl", "linkedinToken", "authorUrn", "openaiKey", "brandName", "brandTone",
            "hashtags", "schedulerTime"]
    ∧ (generatePostRequest w.page.form).body =
        "\x7b" ++ "\"calendarUrl\"" ++ ":" ++ stringifyValue (formDataGet w.page.form "calendarUrl")
          ++ "," ++ "\"linkedinToken\"" ++ ":"
          ++ stringifyValue (formDataGet w.page.form "linkedinToken")
          ++ "," ++ "\"authorUrn\"" ++ ":" ++ stringifyValue (formDataGet w.page.form "authorUrn")
          ++ "," ++ "\"openaiKey\"" ++ ":" ++ stringifyValue (formDataGet w.page.form "openaiKey")
          ++ "," ++ "\"brandName\"" ++ ":" ++ stringifyValue (formDataGet w.page.form "brandName")
          ++ "," ++ "\"brandTone\"" ++ ":" ++ stringifyValue (formDataGet w.page.form "brandTone")
          ++ "," ++ "\"hashtags\"" ++ ":" ++ stringifyValue (formDataGet w.page.form "hashtags")
          ++ "," ++ "\"schedulerTime\"" ++ ":"
          ++ stringifyValue (formDataGet w.page.form "schedulerTime")
          ++ "\x7d"
    ∧ (∀ name, (∀ c ∈ w.page.form, c.name ≠ name) →
        formDataGet w.page.form name = none
        ∧ stringifyValue (formDataGet w.page.form name) = "null")
    ∧ (∀ pre c post, w.page.form = pre ++ c :: post → (∀ x ∈ pre, x.name ≠ c.name) →
        formDataGet w.page.form c.name = some c.value
        ∧ (c.value = "" → stringifyValue (formDataGet w.page.form c.name) = "\"\"")
        ∧ ((∀ ch ∈ c.value.data, plainChar ch = true) →
            stringifyValue (formDataGet w.page.form c.name) = "\"" ++ c.value ++ "\""))
    ∧ (generatePostRequest calendarOnlyForm).body
        = "\x7b\"calendarUrl\":\"http://cal.example/x\",\"linkedinToken\":\"\",\"authorUrn\":\"\",\"openaiKey\":\"\",\"brandName\":\"\",\"brandTone\":\"\",\"hashtags\":\"\",\"schedulerTime\":\"\"\x7d"
    ∧ (generatePostRequest sparseForm).body
        = "\x7b\"calendarUrl\":null,\"linkedinToken\":null,\"authorUrn\":null,\"openaiKey\":null,\"brandName\":\"A\\\"c\\\\m\\ne\\u0001\\b\\t\\f\\r\\u001f\",\"brandTone\":null,\"hashtags\":\"#lean #js\",\"schedulerTime\":null\x7d" := by
  refine ⟨?_, ?_, ?_, ?_, ?_, ?_, ?_, ?_, ?_, ?_, ?_⟩
  · simp [onSubmit]
  · simp [onSubmit, requestsOf_append, requestsOf]
  · rfl
  · simp only [generatePostRequest]
    decide
  · rfl
  · rfl
  · exact stringify_payload w.page.form
  · intro name h
    rw [formDataGet_absent _ _ h]
    exact ⟨rfl, rfl⟩
  · intro pre c post hform hpre
    rw [hform, formDataGet_first pre c post hpre]
    refine ⟨rfl, ?_, ?_⟩
    · intro hempty
      rw [hempty]
      decide
    · intro hplain
      exact quoteJSON_plain c.value hplain
  · rfl
  · rfl

/-! ## One submit and its completion -/

theorem onFailure_log (e : String) (w : World) :
    (onFailure e w).log
      = w.log ++ [Effect.alert ("An error occurred: " ++ e), Effect.resetFormCalled] := by
  simp [onFailure, callResetForm]

theorem onFailure_page (e : String) (w : World) :
    (onFailure e w).page = resetForm { w.page with loadingState := "none" } := by
  simp [onFailure, callResetForm]

theorem resultHtml_split (T B U L : String) :
    resultHtml T B U L =
      "\n        " ++ ("<h2>" ++ T ++ "</h2>") ++ "\n        " ++ ("<p>" ++ B ++ "</p>")
        ++ "\n        " ++ ("<img src=\"" ++ U ++ "\"")
        ++ " alt=\"Generated Banner\" style=\"max-width: 100%; border-radius: 12px; margin-top: 20px;\">\n        <p style=\"margin-top: 20px;\">"
        ++ ("Posted to LinkedIn with URN: " ++ L) ++ "</p>\n    " := by
  have e1 : "\n        <h2>" = "\n        " ++ "<h2>" := by decide
  have e2 : "</h2>\n        <p>" = "</h2>" ++ ("\n        " ++ "<p>") := by decide
  have e3 : "</p>\n        <img src=\"" = "</p>" ++ ("\n        " ++ "<img src=\"") := by decide
  have e4 : "\" alt=\"Generated Banner\" style=\"max-width: 100%; border-radius: 12px; margin-top: 20px;\">\n        <p style=\"margin-top: 20px;\">Posted to LinkedIn with URN: "
      = "\"" ++ (" alt=\"Generated Banner\" style=\"max-width: 100%; border-radius: 12px; margin-top: 20px;\">\n        <p style=\"margin-top: 20px;\">"
        ++ "Posted to LinkedIn with URN: ") := by decide
  unfold resultHtml
  rw [e1, e2, e3, e4]
  simp only [String.append_assoc]

theorem infix_of_eq (x s pre post : String) (h : s = pre ++ x ++ post) :
    x.data <:+: s.data := by
  refine ⟨pre.data, post.data, ?_⟩
  rw [h]
  simp [String.data_append]

/-- C3: when the request of a submit completes with the body
`{post_title: T, post_body: B, banner_url: U, linkedin_post_urn: L}`, for all
strings and from any page, the page ends in the view state `Result`, and the
result markup is the template with `T` between `<h2>` and `</h2>`, `B` between
`<p>` and `</p>`, `U` as the quoted `src` of the `<img>` and `L` after
`Posted to LinkedIn with URN: `, each text unchanged. -/
theorem submit_result (w : World) (T B U L : String) :
    isResultView (submitThenComplete (.body (resultBody T B U L)) w).page = true
    ∧ visible (submitThenComplete (.body (resultBody T B U L)) w).page.thankYouPage = true
    ∧ visible (submitThenComplete (.body (resultBody T B U L)) w).page.mainForm = false
    ∧ visible (submitThenComplete (.body (resultBody T B U L)) w).page.loadingState = false
    ∧ (submitThenComplete (.body (resultBody T B U L)) w).log
        = w.log ++ [Effect.preventDefault, Effect.fetch (generatePostRequest w.page.form),
            Effect.displayResultsCalled]
    ∧ (submitThenComplete (.body (resultBody T B U L)) w).page.resultContainer =
        "\n        " ++ ("<h2>" ++ T ++ "</h2>") ++ "\n        " ++ ("<p>" ++ B ++ "</p>")
          ++ "\n        " ++ ("<img src=\"" ++ U ++ "\"")
          ++ " alt=\"Generated Banner\" style=\"max-width: 100%; border-radius: 12px; margin-top: 20px;\">\n        <p style=\"margin-top: 20px;\">"
          ++ ("Posted to LinkedIn with URN: " ++ L) ++ "</p>\n    "
    ∧ ("<h2>" ++ T ++ "</h2>").data
        <:+: (submitThenComplete (.body (resultBody T B U L)) w).page.resultContainer.data
    ∧ ("<p>" ++ B ++ "</p>").data
        <:+: (submitThenComplete (.body (resultBody T B U L)) w).page.resultContainer.data
    ∧ ("<img src=\"" ++ U ++ "\"").data
        <:+: (submitThenComplete (.body (resultBody T B U L)) w).page.resultContainer.data
    ∧ ("Posted to LinkedIn with URN: " ++ L).data
        <:+: (submitThenComplete (.body (resultBody T B U L)) w).page.resultContainer.data := by
  have hpage : (submitThenComplete (.body (resultBody T B U L)) w).page
      = { form := w.page.form, mainForm := "none", loadingState := "none",
          thankYouPage := "block", resultContainer := resultHtml T B U L } := by
    simp [submitThenComplete, complete, onResponse, callDisplayResults, displayResults,
      renderResult, resultBody, JVal.prop, JVal.lookup, JVal.truthy, JVal.toStr, onSubmit,
      bind, Except.bind, pure, Except.pure]
  have hlog : (submitThenComplete (.body (resultBody T B U L)) w).log
      = w.log ++ [Effect.preventDefault, Effect.fetch (generatePostRequest w.page.form),
          Effect.displayResultsCalled] := by
    simp [submitThenComplete, complete, onResponse, callDisplayResults, displayResults,
      renderResult, resultBody, JVal.prop, JVal.lookup, JVal.truthy, JVal.toStr, onSubmit,
      bind, Except.bind, pure, Except.pure]
  have hsplit := resultHtml_split T B U L
  rw [hpage]
  refine ⟨by simp [isResultView], by simp, by simp, by simp, hlog, hsplit, ?_, ?_, ?_, ?_⟩
  · exact infix_of_eq _ _ "\n        "
      ("\n        " ++ ("<p>" ++ B ++ "</p>") ++ "\n        " ++ ("<img src=\"" ++ U ++ "\"")
        ++ " alt=\"Generated Banner\" style=\"max-width: 100%; border-radius: 12px; margin-top: 20px;\">\n        <p style=\"margin-top: 20px;\">"
        ++ ("Posted to LinkedIn with URN: " ++ L) ++ "</p>\n    ")
      (by simp only [hsplit, String.append_assoc])
  · exact infix_of_eq _ _ ("\n        " ++ ("<h2>" ++ T ++ "</h2>") ++ "\n        ")
      ("\n        " ++ ("<img src=\"" ++ U ++ "\"")
        ++ " alt=\"Generated Banner\" style=\"max-width: 100%; border-radius: 12px; margin-top: 20px;\">\n        <p style=\"margin-top: 20px;\">"
        ++ ("Posted to LinkedIn with URN: " ++ L) ++ "</p>\n    ")
      (by simp only [hsplit, String.append_assoc])
  · exact infix_of_eq _ _
      ("\n        " ++ ("<h2>" ++ T ++ "</h2>") ++ "\n        " ++ ("<p>" ++ B ++ "</p>")
        ++ "\n        ")
      (" alt=\"Generated Banner\" style=\"max-width: 100%; border-radius: 12px; margin-top: 20px;\">\n        <p style=\"margin-top: 20px;\">"
        ++ ("Posted to LinkedIn with URN: " ++ L) ++ "</p>\n    ")
      (by simp only [hsplit, String.append_assoc])
  · exact infix_of_eq _ _
      ("\n        " ++ ("<h2>" ++ T ++ "</h2>") ++ "\n        " ++ ("<p>" ++ B ++ "</p>")
        ++ "\n        " ++ ("<img src=\"" ++ U ++ "\"")
        ++ " alt=\"Generated Banner\" style=\"max-width: 100%; border-radius: 12px; margin-top: 20px;\">\n        <p style=\"margin-top: 20px;\">")
      "</p>\n    "
      (by simp only [hsplit, String.append_assoc])

/-- C2, as stated, fails for the empty string: from the page `filledPage`, a
submit whose request completes with `{error: ""}` ends in the view state
`Result`, with no alert, with `displayResults` called and `resetForm` not
called, and with result markup that is not empty. -/
theorem empty_error_counterexample :
    isFormView filledWorld.page = true
    ∧ JVal.lookup "error" [("error", JVal.str "")] = JVal.str ""
    ∧ isFormView (submitThenComplete (.body (.obj [("error", .str "")])) filledWorld).page = false
    ∧ isResultView (submitThenComplete (.body (.obj [("error", .str "")])) filledWorld).page = true
    ∧ (submitThenComplete (.body (.obj [("error", .str "")])) filledWorld).log
        = [Effect.preventDefault, Effect.fetch (generatePostRequest filledPage.form),
            Effect.displayResultsCalled]
    ∧ (submitThenComplete (.body (.obj [("error", .str "")])) filledWorld).page.resultContainer
        = resultHtml "undefined" "undefined" "undefined" "undefined"
    ∧ (submitThenComplete (.body (.obj [("error", .str "")])) filledWorld).page.resultContainer
        ≠ "" :=
  ⟨by decide, rfl, by decide, by decide, rfl, rfl, by decide⟩

/-- C2, amended: for every string `X` that is not empty, when the request of a
submit completes with an object whose `error` is `X`, from any page, the
page ends in the view state `Form` (form shown, loading and result hidden),
the one alert raised is `Error: ` followed by `X`, `resetForm` is called,
`displayResults` is not, every control is back at its default and the result
markup is empty. -/
theorem submit_error (w : World) (props : List (String × JVal)) (X : String)
    (herr : JVal.lookup "error" props = JVal.str X) (hX : X ≠ "") :
    isFormView (submitThenComplete (.body (.obj props)) w).page = true
    ∧ visible (submitThenComplete (.body (.obj props)) w).page.mainForm = true
    ∧ visible (submitThenComplete (.body (.obj props)) w).page.loadingState = false
    ∧ visible (submitThenComplete (.body (.obj props)) w).page.thankYouPage = false
    ∧ (submitThenComplete (.body (.obj props)) w).log
        = w.log ++ [Effect.preventDefault, Effect.fetch (generatePostRequest w.page.form),
            Effect.alert ("Error: " ++ X), Effect.resetFormCalled]
    ∧ X.data <:+: ("Error: " ++ X).data
    ∧ (submitThenComplete (.body (.obj props)) w).page.form = w.page.form.map Control.reset
    ∧ (submitThenComplete (.body (.obj props)) w).page.resultContainer = "" := by
  have hw : submitThenComplete (.body (.obj props)) w
      = { page := { form := w.page.form.map Control.reset, mainForm := "block",
                    loadingState := "none", thankYouPage := "none", resultContainer := "" },
          log := w.log ++ [Effect.preventDefault, Effect.fetch (generatePostRequest w.page.form),
            Effect.alert ("Error: " ++ X), Effect.resetFormCalled] } := by
    simp [submitThenComplete, complete, onResponse, callResetForm, resetForm, JVal.prop, herr,
      JVal.truthy, JVal.toStr, onSubmit, hX]
  rw [hw]
  refine ⟨by simp [isFormView], by simp, by simp, by simp, rfl, ?_, rfl, rfl⟩
  exact infix_of_eq _ _ "Error: " "" (by simp)

/-- Witness of C2 on `filledPage` with the body `{error: "boom"}`. -/
theorem submit_error_witness :
    JVal.lookup "error" [("error", JVal.str "boom")] = JVal.str "boom" ∧ "boom" ≠ ""
    ∧ isFormView (submitThenComplete (.body (.obj [("error", .str "boom")])) filledWorld).page
        = true
    ∧ (submitThenComplete (.body (.obj [("error", .str "boom")])) filledWorld).log
        = [Effect.preventDefault, Effect.fetch (generatePostRequest filledPage.form),
            Effect.alert "Error: boom", Effect.resetFormCalled] :=
  ⟨rfl, by decide,
    (submit_error filledWorld [("error", .str "boom")] "boom" rfl (by decide)).1,
    (submit_error filledWorld [("error", .str "boom")] "boom" rfl (by decide)).2.2.2.2.1⟩

/-- C4, as stated, fails where a control has a default that is not empty: from
the page `filledPage`, whose control `brandTone` holds `casual` and has
the default `professional`, a submit whose request is rejected leaves
`brandTone` at `professional`, not at the empty string. -/
theorem nonempty_default_counterexample :
    isFormView filledWorld.page = true
    ∧ formDataGet filledWorld.page.form "brandTone" = some "casual"
    ∧ formDataGet
        (submitThenComplete (.rejected "TypeError: Failed to fetch") filledWorld).page.form
        "brandTone" = some "professional"
    ∧ ¬ (∀ c ∈ (submitThenComplete (.rejected "TypeError: Failed to fetch") filledWorld).page.form,
          c.value = "") := by
  decide

/-- C4, amended: for every rejection reason and from any page, a submit whose
request is rejected ends in the view state `Form` (form shown, loading and
result hidden); the one alert raised is `An error occurred: ` followed by
the reason; every control is back at its default value, which is the empty
string where the default is empty; the result markup is empty; and the log
holds the one request of the submit and no other. -/
theorem submit_rejected (w : World) (reason : String) :
    isFormView (submitThenComplete (.rejected reason) w).page = true
    ∧ visible (submitThenComplete (.rejected reason) w).page.mainForm = true
    ∧ visible (submitThenComplete (.rejected reason) w).page.loadingState = false
    ∧ visible (submitThenComplete (.rejected reason) w).page.thankYouPage = false
    ∧ (submitThenComplete (.rejected reason) w).log
        = w.log ++ [Effect.preventDefault, Effect.fetch (generatePostRequest w.page.form),
            Effect.alert ("An error occurred: " ++ reason), Effect.resetFormCalled]
    ∧ "An error occurred".data <+: ("An error occurred: " ++ reason).data
    ∧ "An error occurred: " ++ reason = "An error occurred" ++ (": " ++ reason)
    ∧ requestsOf (submitThenComplete (.rejected reason) w).log
        = requestsOf w.log ++ [generatePostRequest w.page.form]
    ∧ (submitThenComplete (.rejected reason) w).page.form = w.page.form.map Control.reset
    ∧ (∀ c ∈ (submitThenComplete (.rejected reason) w).page.form, c.value = c.defaultValue)
    ∧ (∀ c ∈ (submitThenComplete (.rejected reason) w).page.form,
        c.defaultValue = "" → c.value = "")
    ∧ (submitThenComplete (.rejected reason) w).page.resultContainer = "" := by
  have hw : submitThenComplete (.rejected reason) w
      = { page := { form := w.page.form.map Control.reset, mainForm := "block",
                    loadingState := "none", thankYouPage := "none", resultContainer := "" },
          log := w.log ++ [Effect.preventDefault, Effect.fetch (generatePostRequest w.page.form),
            Effect.alert ("An error occurred: " ++ reason), Effect.resetFormCalled] } := by
    simp [submitThenComplete, complete, onFailure, callResetForm, resetForm, onSubmit]
  have hsplit : "An error occurred: " ++ reason = "An error occurred" ++ (": " ++ reason) := by
    rw [← String.append_assoc]
    rfl
  have hreset : ∀ c ∈ w.page.form.map Control.reset, c.value = c.defaultValue := by
    intro c hc
    simp only [List.mem_map] at hc
    obtain ⟨c0, _, rfl⟩ := hc
    rfl
  rw [hw]
  refine ⟨by simp [isFormView], by simp, by simp, by simp, rfl, ?_, hsplit, ?_, rfl, hreset, ?_,
    rfl⟩
  · rw [hsplit]
    exact ⟨(": " ++ reason).data, by simp [String.data_append]⟩
  · simp [requestsOf_append, requestsOf]
  · intro c hc hdef
    rw [hreset c hc, hdef]

/-! ## The response handler on arbitrary bodies -/

theorem prop_ok (d : JVal) (key : String) (hnull : d ≠ .null) (hundef : d ≠ .undefined) :
    ∃ e, d.prop key = .ok e := by
  cases d with
  | undefined => exact absurd rfl hundef
  | null => exact absurd rfl hnull
  | bool b => exact ⟨_, rfl⟩
  | num z t => exact ⟨_, rfl⟩
  | str s => exact ⟨_, rfl⟩
  | arr items => exact ⟨_, rfl⟩
  | obj props => exact ⟨_, rfl⟩

theorem lookup_absent (key : String) (props : List (String × JVal))
    (h : ∀ kv ∈ props, kv.1 ≠ key) : JVal.lookup key props = .undefined := by
  induction props with
  | nil => rfl
  | cons kv rest ih =>
    obtain ⟨k, v⟩ := kv
    have hk : k ≠ key := h (k, v) (List.mem_cons_self _ _)
    simp only [JVal.lookup, hk, if_false]
    exact ih (fun kv hkv => h kv (List.mem_cons_of_mem _ hkv))

theorem lookup_first (key : String) (pre : List (String × JVal)) (v : JVal)
    (post : List (String × JVal)) (h : ∀ kv ∈ pre, kv.1 ≠ key) :
    JVal.lookup key (pre ++ (key, v) :: post) = v := by
  induction pre with
  | nil => simp [JVal.lookup]
  | cons kv rest ih =>
    obtain ⟨k, x⟩ := kv
    have hk : k ≠ key := h (k, x) (List.mem_cons_self _ _)
    simp only [List.cons_append, JVal.lookup, hk, if_false]
    exact ih (fun kv hkv => h kv (List.mem_cons_of_mem _ hkv))

theorem truthy_false_iff (e : JVal) :
    e.truthy = false
      ↔ (e = .undefined ∨ e = .str "" ∨ e = .null ∨ (∃ text, e = .num true text)
          ∨ e = .bool false) := by
  cases e <;> simp [JVal.truthy]

theorem onResponse_falsy (d e : JVal) (w : World) (hprop : d.prop "error" = .ok e)
    (ht : e.truthy = false) :
    onResponse d w
      = ({ page := (displayResults d { w.page with loadingState := "none" }).1,
           log := w.log ++ [Effect.displayResultsCalled] },
         (displayResults d { w.page with loadingState := "none" }).2) := by
  simp [onResponse, hprop, ht, callDisplayResults]

theorem onResponse_truthy_ok (d e : JVal) (w : World) (text : String)
    (hprop : d.prop "error" = .ok e) (ht : e.truthy = true) (hs : e.toStr = .ok text) :
    onResponse d w
      = ({ page := resetForm { w.page with loadingState := "none" },
           log := w.log ++ [Effect.alert ("Error: " ++ text), Effect.resetFormCalled] },
         none) := by
  simp [onResponse, hprop, ht, hs, callResetForm]

theorem onResponse_truthy_throws (d e : JVal) (w : World) (x : String)
    (hprop : d.prop "error" = .ok e) (ht : e.truthy = true) (hs : e.toStr = .error x) :
    onResponse d w
      = ({ page := { w.page with loadingState := "none" }, log := w.log }, some x) := by
  simp [onResponse, hprop, ht, hs]

/-- C10, as stated, fails on a truthy `error` that cannot be converted to a
string: for the body `{"error": {"toString": 1}}`, which is not `null`, the
concatenation `'Error: ' + data.error` throws, so the response handler raises
no alert and calls neither helper, and the exception goes to the `.catch`
callback, whose alert starts with `An error occurred: `. -/
theorem unconvertible_error_counterexample :
    unconvertibleError ≠ JVal.null
    ∧ unconvertibleError.prop "error" = .ok (.obj [("toString", .num false "1")])
    ∧ (JVal.obj [("toString", .num false "1")]).truthy = true
    ∧ (JVal.obj [("toString", .num false "1")]).toStr = .error JVal.convertErrorText
    ∧ (onResponse unconvertibleError filledWorld).1.log = []
    ∧ (onResponse unconvertibleError filledWorld).2
        = some "TypeError: Cannot convert object to primitive value"
    ∧ (complete (.body unconvertibleError) filledWorld).log
        = [Effect.alert "An error occurred: TypeError: Cannot convert object to primitive value",
            Effect.resetFormCalled] :=
  ⟨by simp [unconvertibleError], rfl, rfl, rfl, rfl, rfl, rfl⟩

/-- C10, amended: the response handler tests the truthiness of `d.error`. For
every parsed body `d` other than `null`, the read of `d.error` yields a value
`e`: the first own property `error` of an object, `undefined` when the object
has none or `d` is not an object. `e` is falsy exactly when it is `undefined`,
the empty string, `null`, a zero or `false`, and `displayResults(d)` is called
exactly when `e` is falsy, with whatever it raises passed on. When `e` is
truthy and converts to a string, the alert `Error: ` followed by that string
is raised, `resetForm` is called and nothing is thrown; when `e` is truthy
and the conversion throws, no alert is raised, neither helper is called and
the exception is thrown. Either way the loading region is hidden first. In
particular `{error: ""}` is rendered as a result, and `{error: "boom"}`,
`{error: 1e21}` and `{error: [1, null, "a"]}` raise `Error: boom`,
`Error: 1e+21` and `Error: 1,,a`, `{error: {toString: 1}}` raises no alert
and throws, and `{error: 0}`, `{error: null}` and `{error: false}` are
rendered as results. -/
theorem onResponse_truthiness (d : JVal) (w : World)
    (hnull : d ≠ .null) (hundef : d ≠ .undefined) :
    (∃ e, d.prop "error" = .ok e
      ∧ (∀ props, d = .obj props → (∀ kv ∈ props, kv.1 ≠ "error") → e = .undefined)
      ∧ (∀ pre v post, d = .obj (pre ++ ("error", v) :: post) →
          (∀ kv ∈ pre, kv.1 ≠ "error") → e = v)
      ∧ ((∀ props, d ≠ .obj props) → e = .undefined)
      ∧ (e.truthy = false
          ↔ (e = .undefined ∨ e = .str "" ∨ e = .null ∨ (∃ text, e = .num true text)
              ∨ e = .bool false))
      ∧ (Effect.displayResultsCalled ∈ (onResponse d w).1.log.drop w.log.length
          ↔ e.truthy = false)
      ∧ (e.truthy = false →
          (onResponse d w).1.log = w.log ++ [Effect.displayResultsCalled]
          ∧ (onResponse d w).1.page
              = (displayResults d { w.page with loadingState := "none" }).1
          ∧ (onResponse d w).2 = (displayResults d { w.page with loadingState := "none" }).2)
      ∧ (e.truthy = true → ∀ text, e.toStr = .ok text →
          (onResponse d w).1.log
              = w.log ++ [Effect.alert ("Error: " ++ text), Effect.resetFormCalled]
          ∧ (onResponse d w).1.page = resetForm { w.page with loadingState := "none" }
          ∧ (onResponse d w).2 = none)
      ∧ (e.truthy = true → ∀ x, e.toStr = .error x →
          (onResponse d w).1.log = w.log
          ∧ (onResponse d w).1.page = { w.page with loadingState := "none" }
          ∧ (onResponse d w).2 = some x))
    ∧ visible (onResponse d w).1.page.loadingState = false
    ∧ (onResponse (.obj [("error", .str "")]) w).1.log = w.log ++ [Effect.displayResultsCalled]
    ∧ (onResponse (.obj [("error", .str "")]) w).1.page.resultContainer
        = resultHtml "undefined" "undefined" "undefined" "undefined"
    ∧ (onResponse (.obj [("error", .str "boom")]) w).1.log
        = w.log ++ [Effect.alert "Error: boom", Effect.resetFormCalled]
    ∧ (onResponse (.obj [("post_title", .str "T"), ("error", .num false "1e+21")]) w).1.log
        = w.log ++ [Effect.alert "Error: 1e+21", Effect.resetFormCalled]
    ∧ (onResponse (.obj [("error", .arr [.num false "1", .null, .str "a"])]) w).1.log
        = w.log ++ [Effect.alert "Error: 1,,a", Effect.resetFormCalled]
    ∧ (onResponse (.obj [("error", .obj [])]) w).1.log
        = w.log ++ [Effect.alert "Error: [object Object]", Effect.resetFormCalled]
    ∧ (onResponse unconvertibleError w).1.log = w.log
    ∧ (onResponse unconvertibleError w).2
        = some "TypeError: Cannot convert object to primitive value"
    ∧ (onResponse (.obj [("error", .num true "0")]) w).1.log
        = w.log ++ [Effect.displayResultsCalled]
    ∧ (onResponse (.obj [("error", .null)]) w).1.log = w.log ++ [Effect.displayResultsCalled]
    ∧ (onResponse (.obj [("error", .bool false)]) w).1.log
        = w.log ++ [Effect.displayResultsCalled] := by
  obtain ⟨e, he⟩ := prop_ok d "error" hnull hundef
  have hload : visible (onResponse d w).1.page.loadingState = false := by
    cases ht : e.truthy with
    | false =>
      rw [onResponse_falsy d e w he ht]
      simp [(displayResults_loading d _)]
    | true =>
      cases hs : e.toStr with
      | error x =>
        rw [onResponse_truthy_throws d e w x he ht hs]
        simp
      | ok text =>
        rw [onResponse_truthy_ok d e w text he ht hs]
        simp [resetForm]
  refine ⟨⟨e, he, ?_, ?_, ?_, truthy_false_iff e, ?_, ?_, ?_, ?_⟩, hload, ?_, ?_, ?_, ?_, ?_, ?_,
    rfl, rfl, rfl, rfl, rfl⟩
  · intro props hd habs
    subst hd
    simp only [JVal.prop, Except.ok.injEq] at he
    rw [← he]
    exact lookup_absent "error" props habs
  · intro pre v post hd hpre
    subst hd
    simp only [JVal.prop, Except.ok.injEq] at he
    rw [← he]
    exact lookup_first "error" pre v post hpre
  · intro hno
    cases d with
    | obj props => exact absurd rfl (hno props)
    | undefined => exact absurd rfl hundef
    | null => exact absurd rfl hnull
    | bool b => simp [JVal.prop] at he; exact he.symm
    | num z t => simp [JVal.prop] at he; exact he.symm
    | str s => simp [JVal.prop] at he; exact he.symm
    | arr items => simp [JVal.prop] at he; exact he.symm
  · cases ht : e.truthy with
    | false =>
      rw [onResponse_falsy d e w he ht]
      simp
    | true =>
      cases hs : e.toStr with
      | error x =>
        rw [onResponse_truthy_throws d e w x he ht hs]
        simp
      | ok text =>
        rw [onResponse_truthy_ok d e w text he ht hs]
        simp
  · intro ht
    rw [onResponse_falsy d e w he ht]
    exact ⟨rfl, rfl, rfl⟩
  · intro ht text hs
    rw [onResponse_truthy_ok d e w text he ht hs]
    exact ⟨rfl, rfl, rfl⟩
  · intro ht x hs
    rw [onResponse_truthy_throws d e w x he ht hs]
    exact ⟨rfl, rfl, rfl⟩
  · rfl
  · rfl
  · simp [onResponse_truthy_ok (.obj [("error", .str "boom")]) (.str "boom") w "boom" rfl rfl rfl]
  · simp [onResponse_truthy_ok (.obj [("post_title", .str "T"), ("error", .num false "1e+21")])
      (.num false "1e+21") w "1e+21" rfl rfl rfl]
  · simp [onResponse_truthy_ok (.obj [("error", .arr [.num false "1", .null, .str "a"])])
      (.arr [.num false "1", .null, .str "a"]) w "1,,a" rfl rfl rfl]
  · simp [onResponse_truthy_ok (.obj [("error", .obj [])]) (.obj []) w "[object Object]"
      rfl rfl rfl]

/-- Witness of C10 on the body `{error: "boom"}`, whose `error` is truthy: the
handler raises `Error: boom` and calls `resetForm`. -/
theorem onResponse_truthiness_witness :
    JVal.obj [("error", .str "boom")] ≠ JVal.null
    ∧ JVal.obj [("error", .str "boom")] ≠ JVal.undefined
    ∧ (onResponse (.obj [("error", .str "boom")]) filledWorld).1.log
        = [Effect.alert "Error: boom", Effect.resetFormCalled]
    ∧ (onResponse (.obj [("error", .str "boom")]) filledWorld).2 = none := by
  obtain ⟨⟨e, he, _, hfirst, _, _, _, _, htruthy, _⟩, _⟩ :=
    onResponse_truthiness (.obj [("error", .str "boom")]) filledWorld (by simp) (by simp)
  have hv : e = .str "boom" := hfirst [] (.str "boom") [] rfl (by simp)
  subst hv
  obtain ⟨hlog, _, hthrow⟩ := htruthy rfl "boom" rfl
  exact ⟨by simp, by simp, hlog, hthrow⟩

/-- C7, as stated, fails on the empty object and on an object with only
`post_title`: both are of neither shape, and from `filledPage` a submit
completed with either calls `displayResults`, raises no alert, does not call
`resetForm`, and renders `undefined` for each missing key. -/
theorem empty_object_counterexample :
    isErrorShape (.obj []) = false ∧ isResultShape (.obj []) = false
    ∧ (submitThenComplete (.body (.obj [])) filledWorld).log
        = [Effect.preventDefault, Effect.fetch (generatePostRequest filledPage.form),
            Effect.displayResultsCalled]
    ∧ (submitThenComplete (.body (.obj [])) filledWorld).page.resultContainer
        = resultHtml "undefined" "undefined" "undefined" "undefined"
    ∧ isResultView (submitThenComplete (.body (.obj [])) filledWorld).page = true
    ∧ isErrorShape (.obj [("post_title", .str "T")]) = false
    ∧ isResultShape (.obj [("post_title", .str "T")]) = false
    ∧ (submitThenComplete (.body (.obj [("post_title", .str "T")])) filledWorld).log
        = [Effect.preventDefault, Effect.fetch (generatePostRequest filledPage.form),
            Effect.displayResultsCalled]
    ∧ (submitThenComplete (.body (.obj [("post_title", .str "T")])) filledWorld).page.resultContainer
        = resultHtml "T" "undefined" "undefined" "undefined" :=
  ⟨rfl, rfl, rfl, rfl, by decide, rfl, rfl, rfl, rfl⟩

/-- C7, amended: for every parsed body of neither the failure shape nor the
success shape, the promise chain takes the generic failure path (the alert
`An error occurred: ` with the text of the exception, then `resetForm`)
exactly when handling the body throws. That is so when the body is `null`,
where the read of `error` throws; when its `error` is truthy, and then not a
string, and cannot be converted to a string, where `displayResults` is not
called; and when its `error` is falsy and `displayResults`, which is called,
throws on a field that cannot be converted to a string. Any other such body
does not take it: with a truthy `error` the alert is `Error: ` followed by
its text and `resetForm` is called; with a falsy `error`, as for the empty
object or an object that lacks some of the four result keys,
`displayResults` is called, no alert is raised, `resetForm` is not called,
the result region is shown and a missing key is rendered as `undefined`. -/
theorem other_shape (d : JVal) (w : World) (hjson : d ≠ .undefined)
    (he : isErrorShape d = false) (_hr : isResultShape d = false) :
    (d = .null →
      (complete (.body d) w).log
          = w.log ++ [Effect.alert ("An error occurred: " ++ JVal.typeErrorText "null" "error"),
              Effect.resetFormCalled]
        ∧ (complete (.body d) w).page = resetForm { w.page with loadingState := "none" })
    ∧ (d ≠ .null →
        ∃ e, d.prop "error" = .ok e
          ∧ (e.truthy = true →
              (∀ X, e ≠ .str X)
              ∧ (∀ text, e.toStr = .ok text →
                  (complete (.body d) w).log
                    = w.log ++ [Effect.alert ("Error: " ++ text), Effect.resetFormCalled])
              ∧ (∀ x, e.toStr = .error x →
                  (complete (.body d) w).log
                    = w.log ++ [Effect.alert ("An error occurred: " ++ x),
                        Effect.resetFormCalled]))
          ∧ (e.truthy = false →
              (∀ html, renderResult d = .ok html →
                (complete (.body d) w).log = w.log ++ [Effect.displayResultsCalled]
                ∧ (complete (.body d) w).page
                    = { form := w.page.form, mainForm := w.page.mainForm,
                        loadingState := "none", thankYouPage := "block",
                        resultContainer := html })
              ∧ (∀ x, renderResult d = .error x →
                (complete (.body d) w).log
                    = w.log ++ [Effect.displayResultsCalled,
                        Effect.alert ("An error occurred: " ++ x), Effect.resetFormCalled]
                ∧ (complete (.body d) w).page
                    = resetForm { w.page with loadingState := "none" })))
    ∧ renderResult (.obj []) = .ok (resultHtml "undefined" "undefined" "undefined" "undefined")
    ∧ renderResult (.obj [("post_title", .str "T")])
        = .ok (resultHtml "T" "undefined" "undefined" "undefined")
    ∧ isErrorShape unconvertibleField = false ∧ isResultShape unconvertibleField = false
    ∧ renderResult unconvertibleField
        = .error "TypeError: Cannot convert object to primitive value"
    ∧ (complete (.body unconvertibleField) w).log
        = w.log ++ [Effect.displayResultsCalled,
            Effect.alert "An error occurred: TypeError: Cannot convert object to primitive value",
            Effect.resetFormCalled]
    ∧ isErrorShape unconvertibleError = false ∧ isResultShape unconvertibleError = false
    ∧ (complete (.body unconvertibleError) w).log
        = w.log ++ [Effect.alert
              "An error occurred: TypeError: Cannot convert object to primitive value",
            Effect.resetFormCalled] := by
  have hfalsy : ∀ (b e : JVal), b.prop "error" = .ok e → e.truthy = false →
      (∀ html, renderResult b = .ok html →
        (complete (.body b) w).log = w.log ++ [Effect.displayResultsCalled]
        ∧ (complete (.body b) w).page
            = { form := w.page.form, mainForm := w.page.mainForm,
                loadingState := "none", thankYouPage := "block",
                resultContainer := html })
      ∧ (∀ x, renderResult b = .error x →
        (complete (.body b) w).log
            = w.log ++ [Effect.displayResultsCalled,
                Effect.alert ("An error occurred: " ++ x), Effect.resetFormCalled]
        ∧ (complete (.body b) w).page = resetForm { w.page with loadingState := "none" }) := by
    intro b e hprop ht
    constructor
    · intro html hrender
      simp [complete, onResponse_falsy b e w hprop ht, displayResults, hrender]
    · intro x hrender
      simp [complete, onResponse_falsy b e w hprop ht, displayResults, hrender, onFailure,
        callResetForm, resetForm]
  have hthrows : ∀ (b e : JVal) (x : String), b.prop "error" = .ok e → e.truthy = true →
      e.toStr = .error x →
      (complete (.body b) w).log
        = w.log ++ [Effect.alert ("An error occurred: " ++ x), Effect.resetFormCalled] := by
    intro b e x hprop ht hs
    simp [complete, onResponse_truthy_throws b e w x hprop ht hs, onFailure, callResetForm]
  refine ⟨?_, ?_, rfl, rfl, rfl, rfl, rfl, ?_, rfl, rfl, ?_⟩
  · intro hd
    subst hd
    simp [complete, onResponse, JVal.prop, onFailure, callResetForm]
  · intro hnull
    obtain ⟨e, hprop⟩ := prop_ok d "error" hnull hjson
    refine ⟨e, hprop, ?_, hfalsy d e hprop⟩
    intro ht
    refine ⟨?_, ?_, fun x => hthrows d e x hprop ht⟩
    · intro X hX
      subst hX
      cases d with
      | obj props =>
        simp only [JVal.prop, Except.ok.injEq] at hprop
        simp [isErrorShape, hprop] at he
      | undefined => simp [JVal.prop] at hprop
      | null => simp [JVal.prop] at hprop
      | bool b => simp [JVal.prop] at hprop
      | num z t => simp [JVal.prop] at hprop
      | str s => simp [JVal.prop] at hprop
      | arr items => simp [JVal.prop] at hprop
    · intro text hs
      simp [complete, onResponse_truthy_ok d e w text hprop ht hs]
  · exact ((hfalsy unconvertibleField .undefined rfl rfl).2 _ rfl).1
  · exact hthrows unconvertibleError (.obj [("toString", .num false "1")]) _ rfl rfl rfl

/-- Witness of C7 on the body `{"post_title": "T"}`, which lacks three of the
four result keys: `displayResults` is called and nothing else happens. -/
theorem other_shape_witness :
    JVal.obj [("post_title", .str "T")] ≠ JVal.undefined
    ∧ isErrorShape (.obj [("post_title", .str "T")]) = false
    ∧ isResultShape (.obj [("post_title", .str "T")]) = false
    ∧ JVal.obj [("post_title", .str "T")] ≠ JVal.null
    ∧ (complete (.body (.obj [("post_title", .str "T")])) filledWorld).log
        = [Effect.displayResultsCalled]
    ∧ (complete (.body (.obj [("post_title", .str "T")])) filledWorld).page.resultContainer
        = resultHtml "T" "undefined" "undefined" "undefined" := by
  obtain ⟨_, hnonnull, _⟩ :=
    other_shape (.obj [("post_title", .str "T")]) filledWorld (by simp) rfl rfl
  obtain ⟨e, hprop, _, hfalsy⟩ := hnonnull (by simp)
  have hv : e = .undefined := by
    simp only [JVal.prop, Except.ok.injEq] at hprop
    rw [← hprop]
    rfl
  subst hv
  obtain ⟨hlog, hpage⟩ := (hfalsy rfl).1 _ rfl
  refine ⟨by simp, rfl, rfl, by simp, hlog, ?_⟩
  rw [hpage]

/-! ## The view states as a reachable-state invariant -/

theorem exactlyOne_of_form (p : Page) (h : isFormView p = true) :
    exactlyOneVisible p = true := by
  simp [isFormView] at h
  simp [exactlyOneVisible, visibleCount, h]

theorem exactlyOne_of_loading (p : Page) (h : isLoadingView p = true) :
    exactlyOneVisible p = true := by
  simp [isLoadingView] at h
  simp [exactlyOneVisible, visibleCount, h]

theorem exactlyOne_of_result (p : Page) (h : isResultView p = true) :
    exactlyOneVisible p = true := by
  simp [isResultView] at h
  simp [exactlyOneVisible, visibleCount, h]

theorem onSubmit_view (w : World) (h : isFormView w.page = true) :
    isLoadingView (onSubmit w).page = true := by
  simp [isFormView] at h
  simp [isLoadingView, onSubmit, h]

theorem complete_view (c : Completion) (w : World) (h : isLoadingView w.page = true) :
    isFormView (complete c w).page = true ∨ isResultView (complete c w).page = true := by
  simp [isLoadingView] at h
  cases c with
  | rejected reason =>
    left
    simp [complete, onFailure_page, resetForm, isFormView]
  | body d =>
    cases hprop : d.prop "error" with
    | error e =>
      left
      simp [complete, onResponse, hprop, onFailure_page, resetForm, isFormView]
    | ok err =>
      cases ht : err.truthy with
      | true =>
        left
        cases hs : err.toStr with
        | error x =>
          simp [complete, onResponse, hprop, ht, hs, onFailure_page, resetForm, isFormView]
        | ok text =>
          simp [complete, onResponse, hprop, ht, hs, callResetForm, resetForm, isFormView]
      | false =>
        cases hrender : renderResult d with
        | error e =>
          left
          simp [complete, onResponse, hprop, ht, callDisplayResults, displayResults, hrender,
            onFailure_page, resetForm, isFormView]
        | ok html =>
          right
          simp [complete, onResponse, hprop, ht, callDisplayResults, displayResults, hrender,
            isResultView, h]

theorem stepFromForm_inv (s s1 : Sys) (e : Event) (hinv : viewInv s)
    (hstep : stepFromForm s e = some s1) : viewInv s1 := by
  cases e with
  | submit =>
    by_cases hform : isFormView s.world.page = true
    · simp only [stepFromForm, hform, if_true, step, Option.some.injEq] at hstep
      subst hstep
      rcases hinv with ⟨_, hp⟩ | ⟨hload, _⟩ | ⟨hres, _⟩
      · right
        left
        exact ⟨onSubmit_view _ hform, by simp [hp]⟩
      · simp [isFormView, isLoadingView] at hform hload
        simp [hform] at hload
      · simp [isFormView, isResultView] at hform hres
        simp [hform] at hres
    · simp [stepFromForm, hform] at hstep
  | completion c =>
    rcases hinv with ⟨_, hp⟩ | ⟨hload, hp⟩ | ⟨_, hp⟩
    · simp [stepFromForm, step, hp] at hstep
    · simp [stepFromForm, step, hp] at hstep
      subst hstep
      rcases complete_view c s.world hload with hf | hr
      · left
        exact ⟨hf, rfl⟩
      · right
        right
        exact ⟨hr, rfl⟩
    · simp [stepFromForm, step, hp] at hstep

theorem runFromForm_inv (evs : List Event) (s0 s : Sys) (hinv : viewInv s0)
    (hrun : runFromForm s0 evs = some s) : viewInv s := by
  induction evs generalizing s0 with
  | nil =>
    simp only [runFromForm, Option.some.injEq] at hrun
    subst hrun
    exact hinv
  | cons e rest ih =>
    simp only [runFromForm] at hrun
    cases hstep : stepFromForm s0 e with
    | none => simp [hstep] at hrun
    | some s1 =>
      simp only [hstep, Option.some_bind] at hrun
      exact ih s1 (stepFromForm_inv s0 s1 e hinv hstep) hrun

/-- C1, as stated, fails, with and without overlapping submits. From the page
`filledPage` (view state `Form`): a submit, its successful completion and a
second submit leave the loading region and the result region both shown; and
two submits, a rejection and a successful completion leave the form region
and the result region both shown. -/
theorem unguarded_submit_counterexample :
    isFormView initSys.world.page = true ∧ initSys.pending = 0
    ∧ (run initSys [.submit, .completion (.body (resultBody "T" "B" "U" "L")), .submit]).map
        (fun s => (s.world.page.mainForm, s.world.page.loadingState, s.world.page.thankYouPage))
        = some ("none", "block", "block")
    ∧ (run initSys [.submit, .completion (.body (resultBody "T" "B" "U" "L")), .submit]).map
        (fun s => exactlyOneVisible s.world.page) = some false
    ∧ (run initSys [.submit, .submit, .completion (.rejected "TypeError: Failed to fetch"),
          .completion (.body (resultBody "T" "B" "U" "L"))]).map
        (fun s => (s.world.page.mainForm, s.world.page.loadingState, s.world.page.thankYouPage))
        = some ("block", "none", "block")
    ∧ (run initSys [.submit, .submit, .completion (.rejected "TypeError: Failed to fetch"),
          .completion (.body (resultBody "T" "B" "U" "L"))]).map
        (fun s => exactlyOneVisible s.world.page) = some false :=
  ⟨by decide, rfl, rfl, rfl, rfl, rfl⟩

/-- C1, amended: starting from a page in the view state `Form` with no request
in flight, in every state reached by a finite sequence of submits, each issued
while the page is in the view state `Form`, and of completions of a request
in flight (a body without error, a body with error, a rejection), exactly one
of the three regions is shown, and at most one request is in flight. -/
theorem view_exclusion (s0 s : Sys) (evs : List Event)
    (hform : isFormView s0.world.page = true) (hpending : s0.pending = 0)
    (hrun : runFromForm s0 evs = some s) :
    exactlyOneVisible s.world.page = true ∧ s.pending ≤ 1 := by
  have hinv : viewInv s := runFromForm_inv evs s0 s (Or.inl ⟨hform, hpending⟩) hrun
  rcases hinv with ⟨h, hp⟩ | ⟨h, hp⟩ | ⟨h, hp⟩
  · exact ⟨exactlyOne_of_form _ h, by omega⟩
  · exact ⟨exactlyOne_of_loading _ h, by omega⟩
  · exact ⟨exactlyOne_of_result _ h, by omega⟩

/-- Witness of C1 on a run from `filledPage`: a submit answered with an error,
then a submit answered with a result. -/
theorem view_exclusion_witness :
    isFormView initSys.world.page = true ∧ initSys.pending = 0
    ∧ runFromForm initSys
        [.submit, .completion (.body (.obj [("error", .str "boom")])), .submit,
          .completion (.body (resultBody "T" "B" "U" "L"))]
      = some (⟨submitThenComplete (.body (resultBody "T" "B" "U" "L"))
          (submitThenComplete (.body (.obj [("error", .str "boom")])) filledWorld), 0⟩ : Sys)
    ∧ exactlyOneVisible (submitThenComplete (.body (resultBody "T" "B" "U" "L"))
          (submitThenComplete (.body (.obj [("error", .str "boom")])) filledWorld)).page = true :=
  ⟨by decide, rfl, rfl,
    (view_exclusion initSys _
      [.submit, .completion (.body (.obj [("error", .str "boom")])), .submit,
        .completion (.body (resultBody "T" "B" "U" "L"))] (by decide) rfl rfl).1⟩

end AutoPost
